import Mathlib

/-!
Verification of the LBMeX MRT lattice-Boltzmann tutorial driver
(`src/GuidedTutorials/LBM/MRT/main_driver.cpp`).

The driver file includes two headers, `lbm.H` and `StructFact.H`, that are
not part of the repository snapshot; the lattice stencil, the equilibrium
distribution, the fused stream–collide kernel and the structure-factor
class they declare are modelled from the specification where needed.
Everything else (parameter defaults and queries, initialization, the
diagnostic-output loops, the structure-factor argument) is translated
directly from `main_driver.cpp`.

The C++ `Real` type is embedded as an arbitrary field `K` (instantiated at
`ℝ` where the trigonometric initial condition is involved, and at `ℚ` for
concrete evaluations).
-/

open Finset

set_option linter.unusedSectionVars false
set_option linter.unusedVariables false

namespace LBMeX

/-- Modelled from the spec: the lattice stencil (`c` in the missing header
`lbm.H`).  Spec §4.1 requires Q integer direction vectors closed under
negation with Σ w_i = 1 and Σ w_i c_i = 0; we use the standard D3Q19 set.
Integer-valued displacement table. -/
def cInt : Fin 19 → Fin 3 → ℤ :=
  ![![0, 0, 0],
    ![1, 0, 0], ![-1, 0, 0], ![0, 1, 0], ![0, -1, 0], ![0, 0, 1], ![0, 0, -1],
    ![1, 1, 0], ![-1, -1, 0], ![1, -1, 0], ![-1, 1, 0],
    ![1, 0, 1], ![-1, 0, -1], ![1, 0, -1], ![-1, 0, 1],
    ![0, 1, 1], ![0, -1, -1], ![0, 1, -1], ![0, -1, 1]]

variable {K : Type} [Field K] [CharZero K]

/-- Field-valued view of the stencil directions, as used in moment sums. -/
def c (i : Fin 19) (k : Fin 3) : K := (cInt i k : K)

/-- Modelled from the spec: the lattice weights (`w` in the missing header
`lbm.H`), the standard D3Q19 weights. -/
def w : Fin 19 → K :=
  ![1/3,
    1/18, 1/18, 1/18, 1/18, 1/18, 1/18,
    1/36, 1/36, 1/36, 1/36, 1/36, 1/36, 1/36, 1/36, 1/36, 1/36, 1/36, 1/36]

/-- Dot product of direction `i` with a velocity vector. -/
def cdot (i : Fin 19) (u : Fin 3 → K) : K :=
  c i 0 * u 0 + c i 1 * u 1 + c i 2 * u 2

/-- Squared norm of a velocity vector. -/
def usq (u : Fin 3 → K) : K := u 0 ^ 2 + u 1 ^ 2 + u 2 ^ 2

/-- Modelled from the spec: `fequilibrium` from the missing header `lbm.H`.
Spec §4.2: a second-order Hermite expansion in `u`, weighted by `w i`, in
`(c i · u)` and `|u|²`, scaled by `ρ` (sound speed `c_s² = 1/3`). -/
def fequilibrium (ρ : K) (u : Fin 3 → K) (i : Fin 19) : K :=
  ρ * w i * (1 + 3 * cdot i u + (9/2) * (cdot i u) ^ 2 - (3/2) * usq u)

/-- Modelled from the spec: MomentExtractor density, §4.5: `density = Σ_i f_i`. -/
def density (f : Fin 19 → K) : K := ∑ i, f i

/-- Modelled from the spec: MomentExtractor first raw moment, §4.5:
component `k` of `Σ_i f_i c_i`. -/
def momentum (f : Fin 19 → K) (k : Fin 3) : K := ∑ i, f i * c i k

/-- Modelled from the spec: MomentExtractor velocity, §4.5:
`velocity = (Σ_i f_i c_i) / density`. -/
def velocity (f : Fin 19 → K) (k : Fin 3) : K := momentum f k / density f

set_option maxHeartbeats 1000000 in
lemma density_fequilibrium (ρ : K) (u : Fin 3 → K) :
    density (fequilibrium ρ u) = ρ := by
  simp [density, fequilibrium, cdot, usq, c, cInt, w, Fin.sum_univ_succ]
  field_simp
  ring

set_option maxHeartbeats 1000000 in
lemma momentum_fequilibrium (ρ : K) (u : Fin 3 → K) (k : Fin 3) :
    momentum (fequilibrium ρ u) k = ρ * u k := by
  fin_cases k <;>
    · simp [momentum, fequilibrium, cdot, usq, c, cInt, w, Fin.sum_univ_succ]
      field_simp
      ring

lemma density_add (f g : Fin 19 → K) :
    density (fun i => f i + g i) = density f + density g :=
  Finset.sum_add_distrib

lemma density_smul (a : K) (f : Fin 19 → K) :
    density (fun i => a * f i) = a * density f :=
  (Finset.mul_sum _ _ _).symm

lemma density_sub (f g : Fin 19 → K) :
    density (fun i => f i - g i) = density f - density g :=
  Finset.sum_sub_distrib

lemma momentum_add (f g : Fin 19 → K) (k : Fin 3) :
    momentum (fun i => f i + g i) k = momentum f k + momentum g k := by
  simp [momentum, add_mul, Finset.sum_add_distrib]

lemma momentum_smul (a : K) (f : Fin 19 → K) (k : Fin 3) :
    momentum (fun i => a * f i) k = a * momentum f k := by
  simp [momentum, Finset.mul_sum, mul_assoc]

/-- Modelled from the spec: the collision stage of `stream_collide` from the
missing header `lbm.H`.  Spec §4.3: extract moments, build the local
equilibrium, relax the non-equilibrium content toward zero in moment space
(conserved moments have rate 0, non-conserved moments relax at rate `1/τ`;
the spec's §9 leaves the exact MRT rate assignment open, and with the
uniform rate the moment transform pair cancels), then add the
back-transformed stochastic correction `ξ` of step (d), which is supported
on the non-conserved moments and vanishes when the temperature is zero. -/
def collide (τ : K) (ξ : Fin 19 → K) (f : Fin 19 → K) (i : Fin 19) : K :=
  fequilibrium (density f) (velocity f) i
    + (1 - 1/τ) * (f i - fequilibrium (density f) (velocity f) i) + ξ i

lemma momentum_fequilibrium_self (f : Fin 19 → K) (hρ : density f ≠ 0) (k : Fin 3) :
    momentum (fequilibrium (density f) (velocity f)) k = momentum f k := by
  rw [momentum_fequilibrium]
  unfold velocity
  field_simp

lemma density_collide (τ : K) (ξ : Fin 19 → K) (f : Fin 19 → K) :
    density (collide τ ξ f) =
      density f + (1 - 1/τ) * (density f - density f) + density ξ := by
  have h1 : density (collide τ ξ f) =
      density (fequilibrium (density f) (velocity f))
        + (1 - 1/τ) * (density (fun i => f i - fequilibrium (density f) (velocity f) i))
        + density ξ := by
    unfold collide
    rw [show (fun i => fequilibrium (density f) (velocity f) i
          + (1 - 1/τ) * (f i - fequilibrium (density f) (velocity f) i) + ξ i) =
        fun i => (fequilibrium (density f) (velocity f) i
          + (1 - 1/τ) * (f i - fequilibrium (density f) (velocity f) i)) + ξ i
      from rfl, density_add, density_add, density_smul]
  rw [h1, density_sub, density_fequilibrium]

lemma momentum_sub (f g : Fin 19 → K) (k : Fin 3) :
    momentum (fun i => f i - g i) k = momentum f k - momentum g k := by
  simp [momentum, sub_mul, Finset.sum_sub_distrib]

lemma momentum_collide (τ : K) (ξ : Fin 19 → K) (f : Fin 19 → K)
    (hρ : density f ≠ 0) (k : Fin 3) :
    momentum (collide τ ξ f) k =
      momentum f k + (1 - 1/τ) * (momentum f k - momentum f k) + momentum ξ k := by
  have h1 : momentum (collide τ ξ f) k =
      momentum (fequilibrium (density f) (velocity f)) k
        + (1 - 1/τ) * momentum (fun i => f i - fequilibrium (density f) (velocity f) i) k
        + momentum ξ k := by
    unfold collide
    rw [show (fun i => fequilibrium (density f) (velocity f) i
          + (1 - 1/τ) * (f i - fequilibrium (density f) (velocity f) i) + ξ i) =
        fun i => (fequilibrium (density f) (velocity f) i
          + (1 - 1/τ) * (f i - fequilibrium (density f) (velocity f) i)) + ξ i
      from rfl, momentum_add, momentum_add, momentum_smul]
  rw [h1, momentum_fequilibrium_self f hρ, momentum_sub, momentum_fequilibrium_self f hρ]

/-- A cell of the fully periodic `n × n × n` grid (spec §3: coordinates in
`[0,N)³` under periodic wrap). -/
abbrev Cell (n : ℕ) := Fin 3 → ZMod n

/-- The periodic displacement of lattice direction `i` on an `n`-grid. -/
def disp (n : ℕ) (i : Fin 19) : Cell n := fun k => (cInt i k : ZMod n)

/-- Modelled from the spec: the streaming stage of `stream_collide` from the
missing header `lbm.H`.  Spec §4.4: each cell's direction-`i` population is
written into the neighbor at (cell + c_i) wrapped modulo the grid size, so
the new field reads the old one at (cell − c_i). -/
def stream {n : ℕ} (φ : Cell n → Fin 19 → K) : Cell n → Fin 19 → K :=
  fun y i => φ (y - disp n i) i

/-- Total mass of a population field over the whole periodic grid. -/
def totalMass {n : ℕ} [NeZero n] (φ : Cell n → Fin 19 → K) : K :=
  ∑ y, ∑ i, φ y i

/-- Total momentum (component `k`) of a population field over the grid. -/
def totalMomentum {n : ℕ} [NeZero n] (φ : Cell n → Fin 19 → K) (k : Fin 3) : K :=
  ∑ y, ∑ i, φ y i * c i k

lemma stream_weighted_sum {n : ℕ} [NeZero n] (φ : Cell n → Fin 19 → K)
    (W : Fin 19 → K) :
    ∑ y, ∑ i, stream φ y i * W i = ∑ y, ∑ i, φ y i * W i := by
  unfold stream
  rw [Finset.sum_comm]
  conv_rhs => rw [Finset.sum_comm]
  refine Finset.sum_congr rfl fun i _ => ?_
  have h := Equiv.sum_comp (Equiv.subRight (disp n i)) (fun y => φ y i * W i)
  simpa [Equiv.subRight_apply] using h

/-- The optional configuration table handed to `ParmParse` (one `Option`
per key queried in `main_driver.cpp` lines 24–30; `none` means the key is
absent from the inputs). -/
structure Inputs (K : Type) where
  nx? : Option ℤ
  nsteps? : Option ℤ
  plotInt? : Option ℤ
  tau? : Option K
  temperature? : Option K
  A? : Option K

/-- The parameter record the driver steps with after setup. -/
structure Params (K : Type) where
  nx : ℤ
  nsteps : ℤ
  plotInt : ℤ
  tau : K
  temperature : K
  A : K

/-- Translation of `main_driver.cpp` lines 15–30: built-in defaults
`nx = 16`, `nsteps = 100`, `plot_int = 10`, `A = 0.001`, then
`ParmParse::query` overwrites a value exactly when its key is present.
`tau` and `temperature` are globals declared in the missing header
`lbm.H`, so their defaults are parameters `tau0`, `temp0` here.  The
driver performs no validation of any value. -/
def setup (tau0 temp0 : K) (inp : Inputs K) : Params K :=
  { nx := inp.nx?.getD 16
    nsteps := inp.nsteps?.getD 100
    plotInt := inp.plotInt?.getD 10
    tau := inp.tau?.getD tau0
    temperature := inp.temperature?.getD temp0
    A := inp.A?.getD (1/1000) }

/-- Translation of the step-0 diagnostic output, `main_driver.cpp` lines
102–109: every component `k` of the cell's `hydrovars` record is set to
`Σ_i f_i · c_i[k]`. -/
def hydro0 (f : Fin 19 → K) (k : Fin 3) : K := ∑ i, f i * c i k

/-- Translation of the step ≥ 1 diagnostic output, `main_driver.cpp` lines
140–145: `u[nbx](x,y,z)` with no component index is component 0 of the
`Array4`, so the loop overwrites only component 0 with `Σ_i f_i · c_i[1]`
and leaves components 1 and 2 at their previously stored values `uOld`. -/
def hydroUpdate (uOld : Fin 3 → K) (f : Fin 19 → K) : Fin 3 → K :=
  fun k => if k = 0 then ∑ i, f i * c i 1 else uOld k

/-- Translation of `main_driver.cpp` lines 76–77, 113 and 133: the MultiFab
`structFactMF` is zero-initialized at setup (`setVal(0.)`) and never
written again, so the field handed to `StructFact::FortStructure` at every
accumulation step is identically zero in each component. -/
def structFactInput (step : ℕ) (x y z : ℤ) (k : Fin 3) : K := 0

/-- Translation of the initial condition, `main_driver.cpp` lines 90–97:
`u_y = A·sin(2πx/nx)`, zero x- and z- velocity components. -/
noncomputable def uInit (A : ℝ) (nx : ℤ) (x : ℤ) : Fin 3 → ℝ :=
  ![0, A * Real.sin (2 * Real.pi * x / nx), 0]

/-- Translation of the initialization loop, `main_driver.cpp` lines 92–97:
every cell `(x,y,z)` gets the equilibrium populations at density 1 and
velocity `(0, A·sin(2πx/nx), 0)`; the lambda ignores `y` and `z`. -/
noncomputable def finit (A : ℝ) (nx : ℤ) (x y z : ℤ) : Fin 19 → ℝ :=
  fequilibrium 1 (uInit A nx x)

/-- Modelled from the spec: the fluctuation amplitude of `stream_collide`'s
stochastic correction from the missing header `lbm.H`.  Spec §4.3(d): the
noise variance is scaled by the temperature `T`, so the amplitude
multiplying a raw unit-variance draw is `√T` (any further
fluctuation–dissipation constant is absorbed into the raw draw);
spec §6: `T = 0` disables stochastic forcing. -/
noncomputable def noiseAmplitude (T : ℝ) : ℝ := Real.sqrt T

/-- Modelled from the spec together with `main_driver.cpp` lines 118–131:
one fused collide-then-stream pass over the grid.  The destination cell
`y`, direction `i`, receives component `i` of the collision output at the
source cell `y − c_i`, where the collision uses that cell's per-cell,
per-step raw noise draw `η` scaled by the temperature-dependent
amplitude. -/
noncomputable def streamCollide (n : ℕ) (τ T : ℝ)
    (η : Cell n → Fin 19 → ℝ) (φ : Cell n → Fin 19 → ℝ) :
    Cell n → Fin 19 → ℝ :=
  fun y i =>
    collide τ (fun j => noiseAmplitude T * η (y - disp n i) j) (φ (y - disp n i)) i

/-- Translation of the timestep loop, `main_driver.cpp` lines 118–131:
`run n τ T ηs m φ` is the population field after `m` steps from the
initial field `φ`, where `ηs k` is the raw per-cell noise stream of
step `k`. -/
noncomputable def run (n : ℕ) (τ T : ℝ) (ηs : ℕ → Cell n → Fin 19 → ℝ) :
    ℕ → (Cell n → Fin 19 → ℝ) → Cell n → Fin 19 → ℝ
  | 0, φ => φ
  | m + 1, φ => streamCollide n τ T (ηs m) (run n τ T ηs m φ)

/-- C4: for every input population vector `f`, every relaxation time `τ`,
and every stochastic correction `ξ` supported on the non-conserved moments
(zero density and momentum moments, as spec §4.3(d) prescribes), the
collision operator leaves the conserved moments unchanged: the density and
momentum of `collide τ ξ f` equal those of `f`. -/
theorem collide_conserves_moments (f : Fin 19 → K) (τ : K) (ξ : Fin 19 → K)
    (hρ : density f ≠ 0) (hξ0 : density ξ = 0) (hξ1 : ∀ k, momentum ξ k = 0) :
    density (collide τ ξ f) = density f ∧
      ∀ k, momentum (collide τ ξ f) k = momentum f k := by
  constructor
  · rw [density_collide, hξ0]
    ring
  · intro k
    rw [momentum_collide τ ξ f hρ, hξ1]
    ring

/-- Witness for C4 at the constant unit population, `τ = 1`, zero noise. -/
theorem collide_conserves_moments_witness :
    density (fun _ : Fin 19 => (1 : ℚ)) ≠ 0 ∧
      density (collide 1 (fun _ => 0) (fun _ : Fin 19 => (1 : ℚ))) =
        density (fun _ : Fin 19 => (1 : ℚ)) := by
  have hρ : density (fun _ : Fin 19 => (1 : ℚ)) ≠ 0 := by
    norm_num [density, Finset.sum_const, Finset.card_univ]
  exact ⟨hρ, (collide_conserves_moments (fun _ => 1) 1 (fun _ => 0) hρ
    (by simp [density]) (fun k => by simp [momentum])).1⟩

/-- C5: one streaming pass over the fully periodic grid conserves the
global totals: total mass and every component of total momentum are equal
before and after streaming, since the periodic shift is a bijection on
cells. -/
theorem stream_conserves_totals {n : ℕ} [NeZero n] (φ : Cell n → Fin 19 → K) :
    totalMass (stream φ) = totalMass φ ∧
      ∀ k, totalMomentum (stream φ) k = totalMomentum φ k := by
  constructor
  · have h := stream_weighted_sum φ (fun _ => (1 : K))
    simpa [totalMass] using h
  · intro k
    have h := stream_weighted_sum φ (fun i => c i k)
    simpa [totalMomentum] using h

/-- Witness for C5 on the 2³ grid with the constant unit field. -/
theorem stream_conserves_totals_witness :
    totalMass (stream (fun _ : Cell 2 => fun _ : Fin 19 => (1 : ℚ))) =
      totalMass (fun _ : Cell 2 => fun _ : Fin 19 => (1 : ℚ)) :=
  (stream_conserves_totals (fun _ => fun _ => 1)).1

/-- C9: every configuration key absent from the input table falls back to
its built-in default (`nx = 16`, `nsteps = 100`, `plot_int = 10`,
`A = 1/1000`), and a supplied value for any key replaces its default. -/
theorem setup_defaults_and_overrides (tau0 temp0 : K) (inp : Inputs K) :
    (inp.nx? = none → (setup tau0 temp0 inp).nx = 16) ∧
    (inp.nsteps? = none → (setup tau0 temp0 inp).nsteps = 100) ∧
    (inp.plotInt? = none → (setup tau0 temp0 inp).plotInt = 10) ∧
    (inp.A? = none → (setup tau0 temp0 inp).A = 1/1000) ∧
    (∀ v, inp.nx? = some v → (setup tau0 temp0 inp).nx = v) ∧
    (∀ v, inp.nsteps? = some v → (setup tau0 temp0 inp).nsteps = v) ∧
    (∀ v, inp.plotInt? = some v → (setup tau0 temp0 inp).plotInt = v) ∧
    (∀ v, inp.tau? = some v → (setup tau0 temp0 inp).tau = v) ∧
    (∀ v, inp.temperature? = some v → (setup tau0 temp0 inp).temperature = v) ∧
    (∀ v, inp.A? = some v → (setup tau0 temp0 inp).A = v) := by
  refine ⟨?_, ?_, ?_, ?_, ?_, ?_, ?_, ?_, ?_, ?_⟩ <;>
    first
      | (intro h; simp [setup, h])
      | (intro v h; simp [setup, h])

/-- Witness for C9: the all-absent table yields `nx = 16`; a table
supplying `plot_int = 7` yields `plot_int = 7`. -/
theorem setup_defaults_and_overrides_witness :
    ((⟨none, none, none, none, none, none⟩ : Inputs ℚ).nx? = none) ∧
    (setup (1 : ℚ) 0 ⟨none, none, none, none, none, none⟩).nx = 16 ∧
    ((⟨none, none, some 7, none, none, none⟩ : Inputs ℚ).plotInt? = some 7) ∧
    (setup (1 : ℚ) 0 ⟨none, none, some 7, none, none, none⟩).plotInt = 7 :=
  ⟨rfl, (setup_defaults_and_overrides 1 0 _).1 rfl, rfl,
    ((setup_defaults_and_overrides 1 0 _).2.2.2.2.2.2.1) 7 rfl⟩

/-- C10: at output steps with index ≥ 1, the output loop writes only
component 0 of each cell's hydrodynamic record, storing the y-momentum
`Σ_i f_i · c_i[1]` there, and leaves every other component at its
previously stored value. -/
theorem output_writes_only_component_zero (u0 : Fin 3 → K) (f : Fin 19 → K)
    (k : Fin 3) (hk : k ≠ 0) :
    hydroUpdate u0 f 0 = ∑ i, f i * c i 1 ∧ hydroUpdate u0 f k = u0 k := by
  constructor
  · rfl
  · simp [hydroUpdate, hk]

/-- Witness for C10 at component 1 with a stored record `(3,4,5)`. -/
theorem output_writes_only_component_zero_witness :
    ((1 : Fin 3) ≠ 0) ∧
      hydroUpdate ![3, 4, 5] (fun _ : Fin 19 => (0 : ℚ)) 1 = 4 := by
  have h := output_writes_only_component_zero ![3, 4, 5]
    (fun _ : Fin 19 => (0 : ℚ)) 1 (by decide)
  exact ⟨by decide, h.2.trans (by simp)⟩

/-- Counterexample to C7: the driver accepts a configuration with
`nx = -5`, `τ = 1/4` and `temperature = -1`: setup is total and carries
the invalid values into the parameter record used for stepping, with no
rejection of any kind. -/
theorem setup_no_validation_cex :
    (setup (1 : ℚ) 0 ⟨some (-5), none, none, some (1/4), some (-1), none⟩).nx = -5 ∧
    (setup (1 : ℚ) 0 ⟨some (-5), none, none, some (1/4), some (-1), none⟩).tau = 1/4 ∧
    (setup (1 : ℚ) 0 ⟨some (-5), none, none, some (1/4), some (-1), none⟩).temperature = -1 :=
  ⟨rfl, rfl, rfl⟩

/-- C7 (amended): setup performs no validation — a non-positive grid size,
a relaxation time below the stable bound `1/2`, and a negative temperature
supplied in the inputs are all accepted verbatim into the parameter record
with which the run proceeds to stepping. -/
theorem setup_accepts_invalid {L : Type} [LinearOrderedField L]
    (tau0 temp0 : L) (inp : Inputs L) (nxv : ℤ) (tv Tv : L)
    (hnx : inp.nx? = some nxv) (htau : inp.tau? = some tv)
    (hT : inp.temperature? = some Tv)
    (h1 : nxv ≤ 0) (h2 : tv < 1/2) (h3 : Tv < 0) :
    (setup tau0 temp0 inp).nx ≤ 0 ∧ (setup tau0 temp0 inp).tau < 1/2 ∧
      (setup tau0 temp0 inp).temperature < 0 := by
  refine ⟨?_, ?_, ?_⟩ <;>
    · simp only [setup, hnx, htau, hT, Option.getD_some]
      first
        | exact h1
        | exact h2
        | exact h3

/-- Witness for C7 (amended) at `nx = -5`, `τ = 1/4`, `temperature = -1`. -/
theorem setup_accepts_invalid_witness :
    ((-5 : ℤ) ≤ 0) ∧ ((1/4 : ℚ) < 1/2) ∧ ((-1 : ℚ) < 0) ∧
      (setup (1 : ℚ) 0 ⟨some (-5), none, none, some (1/4), some (-1), none⟩).nx ≤ 0 :=
  ⟨by norm_num, by norm_num, by norm_num,
    (setup_accepts_invalid 1 0 _ (-5) (1/4) (-1) rfl rfl rfl
      (by norm_num) (by norm_num) (by norm_num)).1⟩

/-- Counterexample to C2: the diagnostic output is not divided by the
density.  For the population vector with value 2 in direction 1 and 0
elsewhere, the written component 0 is the raw moment 2, while
`momentum/density = 2/2 = 1`. -/
theorem hydro_not_velocity_cex :
    hydro0 (fun i : Fin 19 => if i = 1 then (2 : ℚ) else 0) 0 ≠
      momentum (fun i : Fin 19 => if i = 1 then (2 : ℚ) else 0) 0 /
        density (fun i : Fin 19 => if i = 1 then (2 : ℚ) else 0) := by
  have h0 : hydro0 (fun i : Fin 19 => if i = 1 then (2 : ℚ) else 0) 0 = 2 := by
    simp [hydro0, c, cInt, Fin.sum_univ_succ]
  have h1 : momentum (fun i : Fin 19 => if i = 1 then (2 : ℚ) else 0) 0 = 2 := by
    simp [momentum, c, cInt, Fin.sum_univ_succ]
  have h2 : density (fun i : Fin 19 => if i = 1 then (2 : ℚ) else 0) = 2 := by
    simp [density, Fin.sum_univ_succ]
  rw [h0, h1, h2]
  norm_num

/-- C2 (amended): the diagnostic written is the raw first moment, not the
moment divided by density; the two agree exactly on cells of unit density
(as produced by this driver's initialization).  At step 0 every component
`k` holds `Σ_i f_i c_i[k]`; at later output steps component 0 holds
`Σ_i f_i c_i[1]`. -/
theorem hydro_is_momentum_unit_density (f : Fin 19 → K) (u0 : Fin 3 → K)
    (h : density f = 1) :
    (∀ k, hydro0 f k = momentum f k / density f) ∧
      hydroUpdate u0 f 0 = momentum f 1 / density f := by
  rw [h]
  refine ⟨fun k => ?_, ?_⟩
  · rw [div_one]
    rfl
  · rw [div_one]
    rfl

/-- Witness for C2 (amended) at the rest-state equilibrium populations. -/
theorem hydro_is_momentum_unit_density_witness :
    density (fequilibrium (1 : ℚ) ![0, 0, 0]) = 1 ∧
      hydroUpdate ![5, 5, 5] (fequilibrium (1 : ℚ) ![0, 0, 0]) 0 =
        momentum (fequilibrium (1 : ℚ) ![0, 0, 0]) 1 /
          density (fequilibrium (1 : ℚ) ![0, 0, 0]) :=
  ⟨density_fequilibrium 1 _,
    (hydro_is_momentum_unit_density _ ![5, 5, 5] (density_fequilibrium 1 _)).2⟩

/-- Counterexample to C3: at output steps ≥ 1 the written record is not a
function of the current population field alone — two runs of the output
loop on the same population field but different previously stored records
disagree in component 1. -/
theorem output_not_recomputed_cex :
    hydroUpdate ![0, 5, 0] (fun _ : Fin 19 => (0 : ℚ)) 1 ≠
      hydroUpdate ![0, 7, 0] (fun _ : Fin 19 => (0 : ℚ)) 1 := by
  simp [hydroUpdate]

/-- C3 (amended): at step 0 all three components of the hydrodynamic
record are recomputed from the current population field (as its raw first
moment); at output steps ≥ 1 only component 0 is recomputed (set to the
y-moment) while components 1 and 2 keep their previously stored values. -/
theorem output_recomputed_components (u0 : Fin 3 → K) (f : Fin 19 → K) :
    (∀ k, hydro0 f k = momentum f k) ∧
    hydroUpdate u0 f 0 = momentum f 1 ∧
    hydroUpdate u0 f 1 = u0 1 ∧
    hydroUpdate u0 f 2 = u0 2 :=
  ⟨fun _ => rfl, rfl, rfl, rfl⟩

/-- Witness for C3 (amended): on the zero population field, component 1 of
the step ≥ 1 output record keeps its previously stored value 5. -/
theorem output_recomputed_components_witness :
    hydroUpdate ![0, 5, 0] (fun _ : Fin 19 => (0 : ℚ)) 1 = 5 :=
  ((output_recomputed_components ![0, 5, 0] (fun _ => 0)).2.2.1).trans (by simp)

lemma finit_velocity (A : ℝ) (nx x y z : ℤ) (k : Fin 3) :
    velocity (finit A nx x y z) k = uInit A nx x k := by
  unfold velocity finit
  rw [density_fequilibrium, momentum_fequilibrium]
  rw [one_mul, div_one]

/-- C6: with grid size 16 and amplitude `A = 1/1000`, the velocity field
extracted from the initial population field is exactly the prescribed
sinusoid `u_y(x) = (1/1000)·sin(2πx/16)` at every `x`, with zero x- and
z-components, with unit density, and independent of `y` and `z`. -/
theorem initial_velocity_sinusoid (x y z : ℤ) :
    density (finit (1/1000) 16 x y z) = 1 ∧
    velocity (finit (1/1000) 16 x y z) 0 = 0 ∧
    velocity (finit (1/1000) 16 x y z) 1 =
      (1/1000) * Real.sin (2 * Real.pi * x / 16) ∧
    velocity (finit (1/1000) 16 x y z) 2 = 0 ∧
    finit (1/1000) 16 x y z = finit (1/1000) 16 x 0 0 := by
  refine ⟨density_fequilibrium 1 _, ?_, ?_, ?_, rfl⟩ <;>
    · rw [finit_velocity]
      simp [uInit]

/-- C1: the field handed to the structure-factor accumulation is not the
current velocity-field snapshot: the driver passes the zero-initialized,
never-refilled `structFactMF`, which is identically 0, while the velocity
diagnostic of the very first snapshot is already nonzero (at `x = 4` the
initial y-moment is `(1/1000)·sin(π/2) = 1/1000`). -/
theorem structfact_receives_zero_not_velocity :
    structFactInput (K := ℝ) 0 4 0 0 1 = 0 ∧
    hydro0 (finit (1/1000) 16 4 0 0) 1 = 1/1000 ∧
    structFactInput (K := ℝ) 0 4 0 0 1 ≠ hydro0 (finit (1/1000) 16 4 0 0) 1 := by
  have h2 : hydro0 (finit (1/1000) 16 4 0 0) 1 = 1/1000 := by
    have h : hydro0 (finit (1/1000) 16 4 0 0) 1 =
        momentum (fequilibrium 1 (uInit (1/1000) 16 4)) 1 := rfl
    rw [h, momentum_fequilibrium, one_mul]
    simp only [uInit, Matrix.cons_val_one, Matrix.head_cons]
    rw [show ((2 : ℝ) * Real.pi * ((4 : ℤ) : ℝ) / ((16 : ℤ) : ℝ)) = Real.pi / 2 by
      push_cast
      ring]
    rw [Real.sin_pi_div_two, mul_one]
  refine ⟨rfl, h2, ?_⟩
  rw [h2]
  show (0 : ℝ) ≠ 1/1000
  norm_num

/-- C8: at temperature 0 the per-step update is a deterministic function
of the previous generation's field — two runs from identical initial
fields, with arbitrary (possibly different) raw noise streams, produce
identical population fields at every step. -/
theorem zero_temperature_deterministic (n : ℕ) (τ : ℝ)
    (η1 η2 : ℕ → Cell n → Fin 19 → ℝ) (φ1 φ2 : Cell n → Fin 19 → ℝ)
    (h : φ1 = φ2) (m : ℕ) :
    run n τ 0 η1 m φ1 = run n τ 0 η2 m φ2 := by
  subst h
  induction m with
  | zero => rfl
  | succ m ih =>
      show streamCollide n τ 0 (η1 m) (run n τ 0 η1 m φ1) =
        streamCollide n τ 0 (η2 m) (run n τ 0 η2 m φ1)
      rw [ih]
      funext y i
      simp [streamCollide, noiseAmplitude, Real.sqrt_zero]

/-- Witness for C8: three steps on the 16³ grid at `τ = 1` with two
different noise streams agree. -/
theorem zero_temperature_deterministic_witness :
    run 16 1 0 (fun _ _ _ => (0 : ℝ)) 3 (fun _ _ => 1) =
      run 16 1 0 (fun _ _ _ => (1 : ℝ)) 3 (fun _ _ => 1) :=
  zero_temperature_deterministic 16 1 _ _ _ _ rfl 3

end LBMeX
